import Mathlib

/-!
A shallow embedding of the izawa-mcp-server HTTP layer (src/server.ts).

The server exposes:
  * GET /.well-known/model-context-protocol.json — server metadata,
  * POST /mcp — context dispatch (profile / blog_posts_list / blog_post_content),
both with Accept-header SSE negotiation, plus fail-open data helpers
(getUserProfile, getBlogPosts, getBlogPostContent) over the file system.

Modelling conventions:
  * A JSON value is the inductive `Json`; `Json.render` is JSON.stringify
    (no spacing, the default used by express res.json and by the SSE frames).
  * The file system and JSON.parse are abstracted by a `DataAccess` record:
    each fs.readFile call either returns the file's text or throws
    (`Except String String`, `.error` = the thrown error, covering both a
    missing file and an I/O failure), and JSON.parse either returns a value
    or throws.
  * A handler is a pure function to `HttpResponse`: `status` is the status
    the handler sets through res.status (200 when it never calls it — in
    particular on every server-sent-events path, where setupSSE has already
    flushed the headers), and `body` records whether the payload was sent
    with res.json (`plainJson`) or as a single `data: <json>\n\n` frame
    (`sseFrame`).
  * JavaScript truthiness on the strings the handlers test (`!context_id`,
    `!params || !params.post_id`, `if (content)`, `req.get(..) || d`) is
    `truthyStr`: absent and empty strings are falsy.
  * The top-level try/catch of the POST /mcp handler is modelled by the
    `crash` flag: `true` means some unexpected exception was thrown inside
    the try block, and the catch clause answers using the `isSseRequest`
    value computed before the try.
-/

namespace IzawaMcp

/-- JSON values (the fragment the server builds and parses). -/
inductive Json where
  | null : Json
  | bool : Bool → Json
  | str : String → Json
  | arr : List Json → Json
  | obj : List (String × Json) → Json
deriving Repr

/-- Lower-case hexadecimal digit. -/
def hexDigit (n : Nat) : Char :=
  if n < 10 then Char.ofNat (48 + n) else Char.ofNat (87 + (n - 10))

/-- How JSON.stringify escapes one character inside a string literal. -/
def escapeChar (c : Char) : String :=
  if c = '"' then "\\\""
  else if c = '\\' then "\\\\"
  else if c = Char.ofNat 8 then "\\b"
  else if c = Char.ofNat 9 then "\\t"
  else if c = Char.ofNat 10 then "\\n"
  else if c = Char.ofNat 12 then "\\f"
  else if c = Char.ofNat 13 then "\\r"
  else if c.toNat < 32 then
    "\\u00" ++ String.singleton (hexDigit (c.toNat / 16)) ++ String.singleton (hexDigit (c.toNat % 16))
  else String.singleton c

/-- JSON.stringify escaping of a whole string (without the outer quotes). -/
def escapeString (s : String) : String :=
  String.join (s.toList.map escapeChar)

mutual

/-- JSON.stringify with no spacing (what res.json and the SSE frames emit). -/
def Json.render : Json → String
  | .null => "null"
  | .bool true => "true"
  | .bool false => "false"
  | .str s => "\"" ++ escapeString s ++ "\""
  | .arr xs => "[" ++ renderElems xs ++ "]"
  | .obj kvs => "\x7b" ++ renderMembers kvs ++ "\x7d"

/-- Comma-separated rendering of array elements. -/
def renderElems : List Json → String
  | [] => ""
  | [x] => Json.render x
  | x :: y :: xs => Json.render x ++ "," ++ renderElems (y :: xs)

/-- Comma-separated rendering of object members. -/
def renderMembers : List (String × Json) → String
  | [] => ""
  | [(k, v)] => "\"" ++ escapeString k ++ "\":" ++ Json.render v
  | (k, v) :: m :: kvs =>
      "\"" ++ escapeString k ++ "\":" ++ Json.render v ++ "," ++ renderMembers (m :: kvs)

end

/-- JavaScript truthiness of an optional string (`undefined`, `null` and `""`
are falsy; every other string is truthy). -/
def truthyStr : Option String → Bool
  | none => false
  | some s => !(s == "")

/-- `a.startsWith b` on the underlying character lists. -/
def startsWithChars : List Char → List Char → Bool
  | _, [] => true
  | [], _ :: _ => false
  | c :: cs, d :: ds => c = d && startsWithChars cs ds

/-- JavaScript `String.prototype.startsWith`. -/
def strStartsWith (s p : String) : Bool :=
  startsWithChars s.toList p.toList

/-- Does `sub` occur as a contiguous substring of `s` (character lists)? -/
def charsHaveSub (s sub : List Char) : Bool :=
  match s with
  | [] => startsWithChars [] sub
  | c :: cs => startsWithChars (c :: cs) sub || charsHaveSub cs sub

/-- JavaScript `String.prototype.includes`. -/
def strIncludes (s sub : String) : Bool :=
  charsHaveSub s.toList sub.toList

/-- The abstract storage / parsing collaborator behind the data helpers:
each field is the outcome of the corresponding fs.readFile call
(`.error` = the read threw: missing file or I/O failure), and `parseJson`
is JSON.parse (`.error` = it threw). -/
structure DataAccess where
  profileFile : Except String String
  postsIndexFile : Except String String
  postFile : String → Except String String
  parseJson : String → Except String Json

/-- Fallback profile returned by getUserProfile when the read or parse throws
(src/server.ts lines 39-43). -/
def defaultProfile : Json :=
  .obj [("name", .str "泉澤 直樹"),
        ("bio", .str "TypeScript と MCP に興味があるエンジニアです。"),
        ("website", .str "https://example.com")]

/-- Fallback post list returned by getBlogPosts when the read or parse throws
(src/server.ts lines 56-59). -/
def defaultPosts : Json :=
  .arr [.obj [("id", .str "post-1"), ("title", .str "MCPサーバー構築記"),
              ("date", .str "2023-04-09"), ("summary", .str "TypeScriptでMCPサーバーを作った話...")],
        .obj [("id", .str "post-2"), ("title", .str "TypeScriptの便利な機能"),
              ("date", .str "2023-04-01"), ("summary", .str "型安全な開発...")]]

/-- getUserProfile (src/server.ts lines 31-45): read data/profile.json and
JSON.parse it; any thrown error falls back to the built-in default profile. -/
def getUserProfile (d : DataAccess) : Json :=
  match d.profileFile with
  | .ok data =>
      match d.parseJson data with
      | .ok j => j
      | .error _ => defaultProfile
  | .error _ => defaultProfile

/-- getBlogPosts (src/server.ts lines 48-61): read data/posts/index.json and
JSON.parse it; any thrown error falls back to the built-in default list. -/
def getBlogPosts (d : DataAccess) : Json :=
  match d.postsIndexFile with
  | .ok data =>
      match d.parseJson data with
      | .ok j => j
      | .error _ => defaultPosts
  | .error _ => defaultPosts

/-- getBlogPostContent (src/server.ts lines 64-72): read data/posts/<id>.md;
any thrown error (missing file included) yields null, modelled as `none`. -/
def getBlogPostContent (d : DataAccess) (postId : String) : Option String :=
  match d.postFile postId with
  | .ok data => some data
  | .error _ => none

/-- setupSSE (src/server.ts lines 77-92): the request is an SSE request iff
`(req.get('Accept') || '').includes('text/event-stream')`; when it is, the
SSE headers are set and flushed (so the wire status is fixed at 200 before
the handler body runs). Returns the negotiation decision. -/
def setupSSE (accept : Option String) : Bool :=
  let acceptHeader := match accept with
    | some s => if s = "" then "" else s
    | none => ""
  strIncludes acceptHeader "text/event-stream"

/-- The delivered body: res.json of a value, or one SSE `data:` frame. -/
inductive ResBody where
  | plainJson : Json → ResBody
  | sseFrame : Json → ResBody
deriving Repr

/-- Is the body a server-sent-events data frame? -/
def ResBody.isSse : ResBody → Bool
  | .plainJson _ => false
  | .sseFrame _ => true

/-- The bytes of the logical JSON payload: the plain body's bytes, or the
JSON encoded inside the single `data: <json>\n\n` frame. -/
def ResBody.payloadBytes : ResBody → String
  | .plainJson j => j.render
  | .sseFrame j => j.render

/-- The raw bytes put on the wire for the body (`data: ` prefix and the two
newlines included for a frame). -/
def ResBody.wireBytes : ResBody → String
  | .plainJson j => j.render
  | .sseFrame j => "data: " ++ j.render ++ "\n\n"

/-- What a handler does to the response: the status it sets through
res.status (200 when it never calls it) and the body it sends. -/
structure HttpResponse where
  status : Nat
  body : ResBody
deriving Repr

/-- The error payload: an object with the single member `error = msg`. -/
def errJson (msg : String) : Json := .obj [("error", .str msg)]

/-- The MCP success payload: `context` wrapping `content` and `format`
(src/server.ts lines 230-235). -/
def contextPayload (content format : String) : Json :=
  .obj [("context", .obj [("content", .str content), ("format", .str format)])]

/-- The final delivery of a success payload (src/server.ts lines 237-243 and
100-105): one SSE data frame when the request negotiated SSE, otherwise a
plain res.json body; neither path sets a status, so it stays 200. -/
def sendNegotiated (isSse : Bool) (payload : Json) : HttpResponse :=
  if isSse then { status := 200, body := .sseFrame payload }
  else { status := 200, body := .plainJson payload }

/-- The parsed `params` object of a dispatch body. -/
structure McpParams where
  post_id : Option String
deriving Repr

/-- The parsed JSON body of POST /mcp: `context_id` and `params`. -/
structure McpBody where
  context_id : Option String
  params : Option McpParams
deriving Repr

/-- `params.post_id` through the optional `params` object. -/
def postIdOf (params : Option McpParams) : Option String :=
  params.bind McpParams.post_id

/-- The switch over context_id (src/server.ts lines 181-227): either an early
error response (every one of which is sent with res.status(..).json, a plain
JSON body regardless of the SSE negotiation) or the resolved
(content, format) pair handed to the final delivery. -/
def resolveContext (d : DataAccess) (cid : String) (params : Option McpParams) :
    HttpResponse ⊕ (String × String) :=
  if cid = "profile" then
    .inr ((getUserProfile d).render, "application/json")
  else if cid = "blog_posts_list" then
    .inr ((getBlogPosts d).render, "application/json")
  else if cid = "blog_post_content" then
    if !truthyStr (postIdOf params) then
      .inl { status := 400,
             body := .plainJson (errJson "Missing required parameter 'post_id' for context 'blog_post_content'") }
    else
      if truthyStr (getBlogPostContent d ((postIdOf params).getD "")) then
        .inr ((getBlogPostContent d ((postIdOf params).getD "")).getD "", "text/markdown")
      else
        .inl { status := 404,
               body := .plainJson
                 (errJson ("Blog post with id '" ++ (postIdOf params).getD "" ++ "' not found")) }
  else
    .inl { status := 404,
           body := .plainJson (errJson ("Context with id '" ++ cid ++ "' not found")) }

/-- The body of the POST /mcp handler after the negotiation decision
(src/server.ts lines 165-253): `isSse` is the value setupSSE returned on
line 163, `crash` whether an unexpected exception fires inside the try
block (the catch clause of lines 245-253 answers through that same
pre-computed `isSse`). -/
def handleMcpWithSse (d : DataAccess) (isSse : Bool) (body : McpBody) (crash : Bool) :
    HttpResponse :=
  if crash then
    if isSse then { status := 200, body := .sseFrame (errJson "Internal server error") }
    else { status := 500, body := .plainJson (errJson "Internal server error") }
  else if !truthyStr body.context_id then
    if isSse then { status := 200, body := .sseFrame (errJson "context_id is required") }
    else { status := 400, body := .plainJson (errJson "context_id is required") }
  else
    match resolveContext d (body.context_id.getD "") body.params with
    | .inl early => early
    | .inr (content, format) => sendNegotiated isSse (contextPayload content format)

/-- The POST /mcp handler (src/server.ts lines 161-254): negotiate the
envelope once from the Accept header, then run the dispatch body. -/
def handleMcp (d : DataAccess) (accept : Option String) (body : McpBody) (crash : Bool) :
    HttpResponse :=
  handleMcpWithSse d (setupSSE accept) body crash

/-- `req.get('host') || localhost:<port>` (src/server.ts line 111). -/
def resolveHost (port : String) (hostHeader : Option String) : String :=
  if truthyStr hostHeader then hostHeader.getD "" else "localhost:" ++ port

/-- The scheme picked for root_url (src/server.ts line 112):
`req.protocol === 'http' && host.startsWith('localhost') ? 'http' : 'https'`. -/
def metadataScheme (reqProtocol host : String) : String :=
  if reqProtocol == "http" && strStartsWith host "localhost" then "http" else "https"

/-- root_url = `${protocol}://${host}` (src/server.ts line 113). -/
def metadataRootUrl (port : String) (hostHeader : Option String) (reqProtocol : String) :
    String :=
  let host := resolveHost port hostHeader
  metadataScheme reqProtocol host ++ "://" ++ host

/-- The fixed context catalog (src/server.ts lines 120-151). -/
def contextsCatalog : Json :=
  .arr [.obj [("id", .str "profile"),
              ("name", .str "プロフィール情報"),
              ("description", .str "運営者の基本的なプロフィール"),
              ("mcp_endpoint", .str "/mcp")],
        .obj [("id", .str "blog_posts_list"),
              ("name", .str "ブログ記事リスト"),
              ("description", .str "投稿されたブログ記事のタイトルと概要"),
              ("mcp_endpoint", .str "/mcp")],
        .obj [("id", .str "blog_post_content"),
              ("name", .str "ブログ記事本文"),
              ("description", .str "指定されたIDのブログ記事の本文（Markdown形式）"),
              ("mcp_endpoint", .str "/mcp"),
              ("params_schema",
               .obj [("type", .str "object"),
                     ("properties",
                      .obj [("post_id",
                             .obj [("type", .str "string"),
                                   ("description", .str "取得したいブログ記事のID")])]),
                     ("required", .arr [.str "post_id"])])]]

/-- getMcpMetadata (src/server.ts lines 109-153). -/
def getMcpMetadata (port : String) (hostHeader : Option String) (reqProtocol : String) :
    Json :=
  let rootUrl := metadataRootUrl port hostHeader reqProtocol
  .obj [("name", .str "Izawa MCP Server"),
        ("description", .str "プロフィールとブログ記事を提供します。"),
        ("root_url", .str rootUrl),
        ("icon_url", .str (rootUrl ++ "/icon.png")),
        ("contexts", contextsCatalog)]

/-- The GET /.well-known/model-context-protocol.json handler
(src/server.ts lines 96-106). -/
def handleWellKnown (port : String) (hostHeader : Option String) (reqProtocol : String)
    (accept : Option String) : HttpResponse :=
  let isSse := setupSSE accept
  let data := getMcpMetadata port hostHeader reqProtocol
  if isSse then { status := 200, body := .sseFrame data }
  else { status := 200, body := .plainJson data }

/-- The format field of an MCP success payload, when the body is one. -/
def ctxFormat : Json → Option String
  | .obj [("context", .obj [("content", _), ("format", .str f)])] => some f
  | _ => none

/-- The content field of an MCP success payload, when the body is one. -/
def ctxContent : Json → Option String
  | .obj [("context", .obj [("content", .str c), ("format", _)])] => some c
  | _ => none

/-- The payload carried by either kind of body. -/
def ResBody.payload : ResBody → Json
  | .plainJson j => j
  | .sseFrame j => j

/-- A concrete collaborator whose every read and parse throws. -/
def daDown : DataAccess :=
  { profileFile := .error "EIO", postsIndexFile := .error "EIO",
    postFile := fun _ => .error "ENOENT", parseJson := fun _ => .error "SyntaxError" }

/-- A concrete collaborator where post "post-1" exists with a Markdown body
and post "empty" exists with an empty body. -/
def daPosts : DataAccess :=
  { profileFile := .ok "not json", postsIndexFile := .error "EIO",
    postFile := fun pid =>
      if pid = "post-1" then .ok "# MCPサーバー構築記\nbody"
      else if pid = "empty" then .ok ""
      else .error "ENOENT",
    parseJson := fun _ => .error "SyntaxError" }

/-! ### Helper lemmas -/

/-- Truthiness of an absent string. -/
theorem truthyStr_none : truthyStr none = false := rfl

/-- Truthiness of a present string. -/
theorem truthyStr_some (s : String) : truthyStr (some s) = !(s == "") := rfl

/-- The logical payload bytes are the rendering of the carried payload. -/
theorem payloadBytes_eq_render (r : ResBody) : r.payloadBytes = r.payload.render := by
  cases r <;> rfl

/-- The final success delivery never sets a status. -/
theorem sendNegotiated_status (s : Bool) (j : Json) : (sendNegotiated s j).status = 200 := by
  cases s <;> rfl

/-- The final success delivery carries the given payload in either envelope. -/
theorem sendNegotiated_payload (s : Bool) (j : Json) : (sendNegotiated s j).body.payload = j := by
  cases s <;> rfl

/-- The final success delivery streams exactly when the request negotiated SSE. -/
theorem sendNegotiated_isSse (s : Bool) (j : Json) : (sendNegotiated s j).body.isSse = s := by
  cases s <;> rfl

/-- Every early return of the context switch is a plain res.status(..).json
response with status 400 or 404, never an SSE frame. -/
theorem resolveContext_inl (d : DataAccess) (cid : String) (params : Option McpParams)
    (r : HttpResponse) (h : resolveContext d cid params = .inl r) :
    r.body.isSse = false ∧ (r.status = 400 ∨ r.status = 404) := by
  unfold resolveContext at h
  split at h
  · exact Sum.noConfusion h
  split at h
  · exact Sum.noConfusion h
  split at h
  · split at h
    · injection h with h2
      subst h2
      exact ⟨rfl, Or.inl rfl⟩
    · split at h
      · exact Sum.noConfusion h
      · injection h with h2
        subst h2
        exact ⟨rfl, Or.inr rfl⟩
  · injection h with h2
    subst h2
    exact ⟨rfl, Or.inr rfl⟩

/-- ctxFormat reads the format field back out of a success payload. -/
theorem ctxFormat_contextPayload (c f : String) :
    ctxFormat (contextPayload c f) = some f := rfl

/-- ctxContent reads the content field back out of a success payload. -/
theorem ctxContent_contextPayload (c f : String) :
    ctxContent (contextPayload c f) = some c := rfl

/-- The dispatch body carries the same logical payload whether or not the
request negotiated SSE: the branching only picks the envelope. -/
theorem handleMcpWithSse_payload (d : DataAccess) (b : McpBody) (crash : Bool) :
    (handleMcpWithSse d true b crash).body.payload
      = (handleMcpWithSse d false b crash).body.payload := by
  unfold handleMcpWithSse
  cases crash
  · cases ht : truthyStr b.context_id
    · simp [ht, ResBody.payload]
    · rcases hr : resolveContext d (b.context_id.getD "") b.params with early | ⟨c, f⟩ <;>
        simp [ht, hr, sendNegotiated, ResBody.payload]
  · simp [ResBody.payload]

/-- In SSE mode the dispatch answer is a data frame exactly when its status
is 200, i.e. when no early plain-JSON error return fired. -/
theorem handleMcpWithSse_frame (d : DataAccess) (b : McpBody) (crash : Bool) :
    (handleMcpWithSse d true b crash).status = 200
      ↔ (handleMcpWithSse d true b crash).body.isSse = true := by
  unfold handleMcpWithSse
  cases crash
  · cases ht : truthyStr b.context_id
    · simp [ht, ResBody.isSse]
    · rcases hr : resolveContext d (b.context_id.getD "") b.params with early | ⟨c, f⟩
      · rcases resolveContext_inl d _ b.params early hr with ⟨hp, hst⟩
        rcases hst with h4 | h4 <;> simp [ht, hr, hp, h4]
      · simp [ht, hr, sendNegotiated, ResBody.isSse]
  · simp [ResBody.isSse]

/-! ### Claims -/

/-- C1: a POST /mcp body without context_id yields the MissingContextId error
in the negotiated envelope, but the HTTP status is 400 only on the plain
path; the SSE path never sets a status (it stays 200). -/
theorem mcp_missing_context_id (d : DataAccess) (accept : Option String) (b : McpBody)
    (h : b.context_id = none) :
    (setupSSE accept = true →
        handleMcp d accept b false
          = ⟨200, .sseFrame (errJson "context_id is required")⟩)
    ∧ (setupSSE accept = false →
        handleMcp d accept b false
          = ⟨400, .plainJson (errJson "context_id is required")⟩) := by
  unfold handleMcp handleMcpWithSse
  constructor <;> intro hs <;> simp [hs, h, truthyStr]

/-- C1 witness: the amended statement at a concrete SSE request. -/
theorem mcp_missing_context_id_witness :
    (setupSSE (some "text/event-stream") = true →
        handleMcp daDown (some "text/event-stream") ⟨none, none⟩ false
          = ⟨200, .sseFrame (errJson "context_id is required")⟩)
    ∧ (setupSSE (some "text/event-stream") = false →
        handleMcp daDown (some "text/event-stream") ⟨none, none⟩ false
          = ⟨400, .plainJson (errJson "context_id is required")⟩) :=
  mcp_missing_context_id daDown (some "text/event-stream") ⟨none, none⟩ rfl

/-- C1 counterexample: an SSE-negotiated dispatch without context_id answers
with status 200 (the headers were flushed before the error frame), not 400. -/
theorem mcp_missing_context_id_sse_status :
    (handleMcp daDown (some "text/event-stream") ⟨none, none⟩ false).status = 200
    ∧ ¬ (handleMcp daDown (some "text/event-stream") ⟨none, none⟩ false).status = 400 := by
  decide

/-- C4: the scheme of root_url is http exactly when the inbound protocol is
http AND the host begins with localhost (not for every localhost host
regardless of protocol); the two spec examples evaluate as stated. -/
theorem root_url_scheme (reqProtocol host : String) :
    (metadataScheme reqProtocol host = "http"
        ↔ reqProtocol = "http" ∧ strStartsWith host "localhost" = true)
    ∧ metadataRootUrl "3000" (some "localhost:3000") "http" = "http://localhost:3000"
    ∧ metadataRootUrl "3000" (some "example.com") "http" = "https://example.com" := by
  refine ⟨?_, by decide, by decide⟩
  unfold metadataScheme
  constructor
  · intro h
    by_contra hc
    have hb : (reqProtocol == "http" && strStartsWith host "localhost") = false := by
      rcases Bool.eq_false_or_eq_true (reqProtocol == "http" && strStartsWith host "localhost")
        with hb | hb
      · exact absurd (by simpa using hb) hc
      · exact hb
    rw [if_neg (by simp [hb])] at h
    exact absurd h (by decide)
  · rintro ⟨h1, h2⟩
    subst h1
    rw [if_pos (by simp [h2])]

/-- C4 counterexample: with inbound protocol https and a localhost host, the
code forces https, while the claim (scheme http iff host begins with
localhost, regardless of protocol) demands http. -/
theorem root_url_localhost_https :
    metadataRootUrl "3000" (some "localhost:3000") "https" = "https://localhost:3000"
    ∧ strStartsWith "localhost:3000" "localhost" = true := by
  decide

/-- C5: dispatch to blog_post_content with params missing or lacking post_id
always answers 400 MissingParameter as a plain JSON body, for every Accept
header (SSE-negotiated or not). -/
theorem missing_post_id_plain_400 (d : DataAccess) (accept : Option String)
    (params : Option McpParams)
    (h : params = none ∨ postIdOf params = none) :
    handleMcp d accept ⟨some "blog_post_content", params⟩ false
      = ⟨400, .plainJson
          (errJson "Missing required parameter 'post_id' for context 'blog_post_content'")⟩ := by
  have ht : truthyStr (postIdOf params) = false := by
    rcases h with h | h
    · subst h
      rfl
    · rw [h]
      rfl
  unfold handleMcp handleMcpWithSse resolveContext
  simp [ht, truthyStr_some]

/-- C5 witness: the missing-parameter answer at a concrete SSE request. -/
theorem missing_post_id_plain_400_witness :
    handleMcp daDown (some "text/event-stream") ⟨some "blog_post_content", none⟩ false
      = ⟨400, .plainJson
          (errJson "Missing required parameter 'post_id' for context 'blog_post_content'")⟩ :=
  missing_post_id_plain_400 daDown (some "text/event-stream") none (Or.inl rfl)

/-- C7: when the collaborator reports the post body absent, dispatch answers
404 with exactly the error object naming that post id; rendered, the
spec's example body is byte-for-byte the stated JSON. -/
theorem blog_post_not_found_404 (d : DataAccess) (accept : Option String)
    (params : Option McpParams) (pid : String)
    (h1 : postIdOf params = some pid) (h2 : pid ≠ "")
    (h3 : getBlogPostContent d pid = none) :
    handleMcp d accept ⟨some "blog_post_content", params⟩ false
      = ⟨404, .plainJson (errJson ("Blog post with id '" ++ pid ++ "' not found"))⟩
    ∧ Json.render (errJson "Blog post with id 'missing-id' not found")
      = "\x7b\"error\":\"Blog post with id 'missing-id' not found\"\x7d" := by
  refine ⟨?_, by decide⟩
  unfold handleMcp handleMcpWithSse resolveContext
  simp [h1, h2, h3, truthyStr_some, truthyStr_none]

/-- C7 witness: the 404 answer at the spec's concrete missing-id request. -/
theorem blog_post_not_found_404_witness :
    (handleMcp daDown none ⟨some "blog_post_content", some ⟨some "missing-id"⟩⟩ false
      = ⟨404, .plainJson (errJson "Blog post with id 'missing-id' not found")⟩)
    ∧ Json.render (errJson "Blog post with id 'missing-id' not found")
      = "\x7b\"error\":\"Blog post with id 'missing-id' not found\"\x7d" :=
  blog_post_not_found_404 daDown none (some ⟨some "missing-id"⟩) "missing-id" rfl
    (by decide) rfl

/-- C8: a present, non-empty context_id outside the catalog answers 404 with
the error naming that context id. -/
theorem unknown_context_id_404 (d : DataAccess) (accept : Option String)
    (params : Option McpParams) (cid : String)
    (h0 : cid ≠ "") (h1 : cid ≠ "profile") (h2 : cid ≠ "blog_posts_list")
    (h3 : cid ≠ "blog_post_content") :
    handleMcp d accept ⟨some cid, params⟩ false
      = ⟨404, .plainJson (errJson ("Context with id '" ++ cid ++ "' not found"))⟩ := by
  unfold handleMcp handleMcpWithSse resolveContext
  simp [h0, h1, h2, h3, truthyStr_some]

/-- C8 witness: the 404 answer at a concrete unknown context id. -/
theorem unknown_context_id_404_witness :
    handleMcp daDown none ⟨some "unknown-ctx", none⟩ false
      = ⟨404, .plainJson (errJson "Context with id 'unknown-ctx' not found")⟩ :=
  unknown_context_id_404 daDown none none "unknown-ctx" (by decide) (by decide)
    (by decide) (by decide)

/-- C8 counterexample: the empty string is a present context id outside the
catalog, yet the dispatcher treats it as missing and answers 400
MissingContextId, not 404 referencing it. -/
theorem empty_context_id_dispatch :
    handleMcp daDown none ⟨some "", none⟩ false
      = ⟨400, .plainJson (errJson "context_id is required")⟩
    ∧ ¬ (handleMcp daDown none ⟨some "", none⟩ false).status = 404 := by
  refine ⟨rfl, by decide⟩

/-- C2: the envelope is decided once from the Accept header before any
content resolution, but not every outcome honours it: the 404 outcomes and
the 400 with context_id present (MissingParameter) are always plain JSON,
while success, MissingContextId and InternalError follow the negotiation. -/
theorem envelope_per_outcome (d : DataAccess) (accept : Option String)
    (b : McpBody) (crash : Bool) :
    (handleMcp d accept b crash).body.isSse
      = (setupSSE accept
          && !(((handleMcp d accept b crash).status == 404)
            || (((handleMcp d accept b crash).status == 400) && truthyStr b.context_id))) := by
  unfold handleMcp handleMcpWithSse
  cases crash
  · cases ht : truthyStr b.context_id
    · cases hs : setupSSE accept <;> simp [hs, ht, ResBody.isSse]
    · rcases hr : resolveContext d (b.context_id.getD "") b.params with early | ⟨c, f⟩
      · rcases resolveContext_inl d _ b.params early hr with ⟨hp, hst⟩
        rcases hst with h4 | h4 <;> simp [ht, hr, hp, h4]
      · cases hs : setupSSE accept <;>
          simp [ht, hr, hs, sendNegotiated, ResBody.isSse]
  · cases hs : setupSSE accept <;> simp [hs, ResBody.isSse]

/-- C2 counterexample: a request that negotiated SSE but lacks post_id is
answered with a plain JSON body, outside the negotiated envelope. -/
theorem sse_missing_param_plain_body :
    setupSSE (some "text/event-stream") = true
    ∧ (handleMcp daDown (some "text/event-stream")
        ⟨some "blog_post_content", none⟩ false).body.isSse = false := by
  decide

/-- C3: for every dispatch request the logical JSON payload is byte-identical
between an SSE-negotiated issue and a plain one, and the metadata endpoint
wraps the identical metadata document in a frame or a body; but an
SSE-negotiated dispatch carries a data frame only when its status is 200,
so the early error paths stream no frame at all. -/
theorem payload_negotiation_invariance (d : DataAccess) (b : McpBody) (crash : Bool)
    (port reqProtocol : String) (hostHeader : Option String) (aS aP : Option String)
    (hS : setupSSE aS = true) (hP : setupSSE aP = false) :
    (handleMcp d aS b crash).body.payloadBytes
        = (handleMcp d aP b crash).body.payloadBytes
    ∧ (handleWellKnown port hostHeader reqProtocol aS).body
        = .sseFrame (getMcpMetadata port hostHeader reqProtocol)
    ∧ (handleWellKnown port hostHeader reqProtocol aP).body
        = .plainJson (getMcpMetadata port hostHeader reqProtocol)
    ∧ ((handleMcp d aS b crash).status = 200
        ↔ (handleMcp d aS b crash).body.isSse = true) := by
  refine ⟨?_, by simp [handleWellKnown, hS], by simp [handleWellKnown, hP], ?_⟩
  · unfold handleMcp
    rw [hS, hP, payloadBytes_eq_render, payloadBytes_eq_render, handleMcpWithSse_payload]
  · unfold handleMcp
    rw [hS]
    exact handleMcpWithSse_frame d b crash

/-- C3 witness: the negotiation invariance at a concrete profile request and
a concrete metadata request. -/
theorem payload_negotiation_invariance_witness :
    (handleMcp daDown (some "text/event-stream") ⟨some "profile", none⟩ false).body.payloadBytes
        = (handleMcp daDown none ⟨some "profile", none⟩ false).body.payloadBytes
    ∧ (handleWellKnown "3000" (some "localhost:3000") "http" (some "text/event-stream")).body
        = .sseFrame (getMcpMetadata "3000" (some "localhost:3000") "http")
    ∧ (handleWellKnown "3000" (some "localhost:3000") "http" none).body
        = .plainJson (getMcpMetadata "3000" (some "localhost:3000") "http")
    ∧ ((handleMcp daDown (some "text/event-stream") ⟨some "profile", none⟩ false).status = 200
        ↔ (handleMcp daDown (some "text/event-stream")
            ⟨some "profile", none⟩ false).body.isSse = true) :=
  payload_negotiation_invariance daDown ⟨some "profile", none⟩ false "3000" "http"
    (some "localhost:3000") (some "text/event-stream") none rfl rfl

/-- C3 counterexample: an SSE-negotiated dispatch to an unknown context id is
delivered as a plain JSON body with status 404 — the streamed response holds
no SSE data frame whose payload the plain body could match. -/
theorem sse_unknown_context_no_frame :
    setupSSE (some "text/event-stream") = true
    ∧ (handleMcp daDown (some "text/event-stream")
        ⟨some "nope", none⟩ false).body.isSse = false
    ∧ (handleMcp daDown (some "text/event-stream") ⟨some "nope", none⟩ false).status = 404 := by
  decide

/-- C6: successful dispatches carry format application/json for profile (the
JSON-serialised profile document), application/json for blog_posts_list (the
JSON-serialised list) and text/markdown for blog_post_content (the raw
Markdown body). -/
theorem catalog_formats (d : DataAccess) (accept : Option String)
    (params : Option McpParams) (pid mdBody : String)
    (h1 : postIdOf params = some pid) (h2 : pid ≠ "")
    (h3 : d.postFile pid = .ok mdBody) (h4 : mdBody ≠ "") :
    ctxFormat (handleMcp d accept ⟨some "profile", params⟩ false).body.payload
        = some "application/json"
    ∧ ctxContent (handleMcp d accept ⟨some "profile", params⟩ false).body.payload
        = some (getUserProfile d).render
    ∧ ctxFormat (handleMcp d accept ⟨some "blog_posts_list", params⟩ false).body.payload
        = some "application/json"
    ∧ ctxContent (handleMcp d accept ⟨some "blog_posts_list", params⟩ false).body.payload
        = some (getBlogPosts d).render
    ∧ ctxFormat (handleMcp d accept ⟨some "blog_post_content", params⟩ false).body.payload
        = some "text/markdown"
    ∧ ctxContent (handleMcp d accept ⟨some "blog_post_content", params⟩ false).body.payload
        = some mdBody := by
  unfold handleMcp handleMcpWithSse resolveContext getBlogPostContent
  refine ⟨?_, ?_, ?_, ?_, ?_, ?_⟩ <;>
    simp [h1, h2, h3, h4, truthyStr_some, sendNegotiated_payload,
      ctxFormat_contextPayload, ctxContent_contextPayload]

/-- C6 witness: the three formats at concrete successful requests. -/
theorem catalog_formats_witness :
    ctxFormat (handleMcp daPosts none ⟨some "profile", some ⟨some "post-1"⟩⟩ false).body.payload
        = some "application/json"
    ∧ ctxContent (handleMcp daPosts none ⟨some "profile", some ⟨some "post-1"⟩⟩ false).body.payload
        = some (getUserProfile daPosts).render
    ∧ ctxFormat (handleMcp daPosts none
        ⟨some "blog_posts_list", some ⟨some "post-1"⟩⟩ false).body.payload
        = some "application/json"
    ∧ ctxContent (handleMcp daPosts none
        ⟨some "blog_posts_list", some ⟨some "post-1"⟩⟩ false).body.payload
        = some (getBlogPosts daPosts).render
    ∧ ctxFormat (handleMcp daPosts none
        ⟨some "blog_post_content", some ⟨some "post-1"⟩⟩ false).body.payload
        = some "text/markdown"
    ∧ ctxContent (handleMcp daPosts none
        ⟨some "blog_post_content", some ⟨some "post-1"⟩⟩ false).body.payload
        = some "# MCPサーバー構築記\nbody" :=
  catalog_formats daPosts none (some ⟨some "post-1"⟩) "post-1" "# MCPサーバー構築記\nbody"
    rfl (by decide) rfl (by decide)

/-- C9: storage failures are absorbed at the helper boundary — failed reads
of the profile and the post list fall back to the built-in defaults and
never propagate, a failed post-body read yields the absent marker, and such
a request takes the dispatcher's 404 path. -/
theorem storage_failures_absorbed (d : DataAccess) (accept : Option String)
    (params : Option McpParams) (pid e1 e2 e3 : String)
    (h1 : d.profileFile = .error e1) (h2 : d.postsIndexFile = .error e2)
    (h3 : d.postFile pid = .error e3)
    (h4 : postIdOf params = some pid) (h5 : pid ≠ "") :
    getUserProfile d = defaultProfile
    ∧ getBlogPosts d = defaultPosts
    ∧ getBlogPostContent d pid = none
    ∧ handleMcp d accept ⟨some "blog_post_content", params⟩ false
        = ⟨404, .plainJson (errJson ("Blog post with id '" ++ pid ++ "' not found"))⟩ := by
  refine ⟨?_, ?_, ?_, ?_⟩
  · unfold getUserProfile
    rw [h1]
  · unfold getBlogPosts
    rw [h2]
  · unfold getBlogPostContent
    rw [h3]
  · unfold handleMcp handleMcpWithSse resolveContext getBlogPostContent
    simp [h3, h4, h5, truthyStr_some, truthyStr_none]

/-- C9 witness: the fail-open defaults and the 404 path at a collaborator
whose every read throws. -/
theorem storage_failures_absorbed_witness :
    getUserProfile daDown = defaultProfile
    ∧ getBlogPosts daDown = defaultPosts
    ∧ getBlogPostContent daDown "missing-id" = none
    ∧ handleMcp daDown none ⟨some "blog_post_content", some ⟨some "missing-id"⟩⟩ false
        = ⟨404, .plainJson (errJson "Blog post with id 'missing-id' not found")⟩ :=
  storage_failures_absorbed daDown none (some ⟨some "missing-id"⟩) "missing-id" "EIO" "EIO"
    "ENOENT" rfl rfl rfl rfl (by decide)

/-- C10: a post whose stored body is the empty string is truthiness-rejected
and answered exactly like an absent post: 404 naming the post id. -/
theorem empty_post_body_404 (d : DataAccess) (accept : Option String)
    (params : Option McpParams) (pid : String)
    (h1 : postIdOf params = some pid) (h2 : pid ≠ "")
    (h3 : d.postFile pid = .ok "") :
    handleMcp d accept ⟨some "blog_post_content", params⟩ false
      = ⟨404, .plainJson (errJson ("Blog post with id '" ++ pid ++ "' not found"))⟩ := by
  unfold handleMcp handleMcpWithSse resolveContext getBlogPostContent
  simp [h1, h2, h3, truthyStr_some, truthyStr_none]

/-- C10 witness: the empty-body 404 at a concrete existing-but-empty post. -/
theorem empty_post_body_404_witness :
    handleMcp daPosts none ⟨some "blog_post_content", some ⟨some "empty"⟩⟩ false
      = ⟨404, .plainJson (errJson "Blog post with id 'empty' not found")⟩ :=
  empty_post_body_404 daPosts none (some ⟨some "empty"⟩) "empty" rfl (by decide) rfl

end IzawaMcp
